import Mathlib

/-!
Shallow embedding of `src/gbm.py` (class `GBM_Simulator`) and proofs of the
frozen claims about it.

Conventions of the embedding:
* Dates are day serial numbers (`Nat`) counted from an epoch Monday, so a
  serial `d` falls on a weekday (Monday..Friday) exactly when `d % 7 < 5`;
  `pd.date_range(start, end, freq="B")` becomes the inclusive serial range
  filtered to weekdays.
* Python floats are modelled as elements of a linear ordered field
  (instantiated with `Real` in the theorems); `np.exp` and `np.sqrt` are
  passed as function parameters `ex` and `sq`, and the random draws as an
  explicit list `z` of standard normal draws, since a draw from
  `np.random.normal(0, s)` is `s` times a standard normal draw.
* Python dynamic values reaching the `dt = T / n` expression are modelled
  by `PyVal` (number, tuple or numpy array), and runtime exceptions by
  `Except PyError`.
-/

namespace GBM

/-- Python runtime exception classes distinguished by the embedding.
`degenerateRange` and `configurationError` are modelled from the spec:
the spec names error classes `DegenerateRangeError` and
`ConfigurationError` that `src/gbm.py` never defines nor raises; these two
constructors exist only so that their absence can be stated. -/
inductive PyError where
  | typeError
  | valueError
  | zeroDivisionError
  | degenerateRange
  | configurationError
  deriving DecidableEq

/-- Python values that can reach the `dt = T / n` expression and the numpy
pipeline: numbers, tuples (the constructor stores `self.T = T,` and
`self.n = n,` with trailing commas, producing one-element tuples) and
numpy arrays. -/
inductive PyVal (α : Type) where
  | num : α → PyVal α
  | tup : List (PyVal α) → PyVal α
  | arr : List α → PyVal α

section Model

variable {α : Type} [LinearOrderedField α] [DecidableEq α]

/-- Python division as used at `dt = T / n` (line 108): defined on two
numbers, a `TypeError` on any tuple or array operand. -/
def pyDiv : PyVal α → PyVal α → Except PyError (PyVal α)
  | PyVal.num a, PyVal.num b =>
      if b = 0 then Except.error PyError.zeroDivisionError
      else Except.ok (PyVal.num (a / b))
  | _, _ => Except.error PyError.typeError

/-- Running-total helper: `cumsumAux acc l` lists `acc` plus the sum of
each nonempty prefix of `l`; `np.cumsum` is the `acc = 0` case. -/
def cumsumAux (acc : α) : List α → List α
  | [] => []
  | x :: xs => (acc + x) :: cumsumAux (acc + x) xs

/-- `np.cumsum` on a one-dimensional array. -/
def cumsum (l : List α) : List α := cumsumAux 0 l

/-- Running-product helper; `np.cumprod` is the `acc = 1` case. -/
def cumprodAux (acc : α) : List α → List α
  | [] => []
  | x :: xs => (acc * x) :: cumprodAux (acc * x) xs

/-- `np.cumprod` on a one-dimensional array. -/
def cumprod (l : List α) : List α := cumprodAux 1 l

/-- Per-step log-return increments from lines 112-113 of
`_create_geometric_brownian_motion`:
`(self.mu - self.sigma**2 / 2) * dt + self.sigma * (sqdt * z i)`, where
`sqdt` stands for `np.sqrt(dt)` and `z i` for the standard normal draws
(a draw from `np.random.normal(0, np.sqrt(dt))` is `np.sqrt(dt)` times a
standard normal draw). -/
def increments (mu sigma dt sqdt : α) (z : List α) : List α :=
  z.map (fun zi => (mu - sigma ^ 2 / 2) * dt + sigma * (sqdt * zi))

/-- The numpy pipeline of lines 111-117: `asset_path = np.exp(increments)`
followed by `self.init_price * asset_path.cumprod()`. -/
def gbmPath (ex : α → α) (init_price mu sigma dt sqdt : α) (z : List α) : List α :=
  (cumprod ((increments mu sigma dt sqdt z).map ex)).map (fun x => init_price * x)

/-- Reference definition following the words of the spec (section 4.2,
steps 4-5): `cum[t] = sum of increment[k] over k <= t` and
`price[t] = init_price * exp(cum[t])`.  Stated only for comparison with
`gbmPath` in claim C1. -/
def gbmPathSpec (ex : α → α) (init_price mu sigma dt sqdt : α) (z : List α) : List α :=
  (cumsum (increments mu sigma dt sqdt z)).map (fun c => init_price * ex c)

/-- `pd.date_range(self.start_date, self.end_date, freq="B")` (lines
76-80) on day serials counted from an epoch Monday: the inclusive range
filtered to weekdays. -/
def businessDayRange (start_date end_date : Nat) : List Nat :=
  ((List.range (end_date + 1 - start_date)).map (fun i => start_date + i)).filter
    (fun d => d % 7 < 5)

/-- A pandas DataFrame as built by this program: a date column plus named
numeric columns in insertion order. -/
structure Frame (α : Type) where
  dateCol : List Nat
  cols : List (String × List α)

/-- The column names of a frame, `date` first. -/
def frameColumns (f : Frame α) : List String :=
  "date" :: f.cols.map Prod.fst

/-- `_create_empty_frame` (lines 65-88): business-day date column, `open`
and `close` columns of zeros, column order `date, open, close`. -/
def create_empty_frame (start_date end_date : Nat) : Frame α :=
  ⟨businessDayRange start_date end_date,
   [("open", List.replicate (businessDayRange start_date end_date).length 0),
    ("close", List.replicate (businessDayRange start_date end_date).length 0)]⟩

/-- Column assignment `data[k] = v` on the named columns: replaces the
column in place when the name exists, appends it at the end otherwise. -/
def assocSet : List (String × List α) → String → List α → List (String × List α)
  | [], k, v => [(k, v)]
  | (k1, v1) :: rest, k, v =>
      if k1 = k then (k, v) :: rest else (k1, v1) :: assocSet rest k v

/-- Lookup of a named column. -/
def colLookup : List (String × List α) → String → Option (List α)
  | [], _ => none
  | (k1, v1) :: rest, k => if k1 = k then some v1 else colLookup rest k

/-- `_append_path_to_data` (lines 119-136): `data["close"] = path`; pandas
raises a `ValueError` when the assigned array length differs from the
frame length. -/
def append_path_to_data (data : Frame α) (path : List α) : Except PyError (Frame α) :=
  if path.length = data.dateCol.length then
    Except.ok ⟨data.dateCol, assocSet data.cols "close" path⟩
  else Except.error PyError.valueError

/-- The attribute state built by `__init__` (lines 41-63).  The trailing
commas at lines 57-58 make the stored `T` and `n` one-element tuples, so
those two fields hold `PyVal` values. -/
structure GBM_Simulator (α : Type) where
  start_date : Nat
  end_date : Nat
  output_dir : String
  T : PyVal α
  n : PyVal α
  symbol : String
  init_price : α
  mu : α
  sigma : α
  num_sims : ℤ

/-- `__init__` (lines 41-63): stores every argument unchanged, except that
`self.T = T,` and `self.n = n,` (trailing commas) store one-element
tuples.  No validation of any kind is performed. -/
def GBM_Simulator.init (start_date end_date : Nat) (output_dir : String) (T n : α)
    (symbol : String) (init_price mu sigma : α) (num_sims : ℤ) : GBM_Simulator α :=
  ⟨start_date, end_date, output_dir, PyVal.tup [PyVal.num T], PyVal.tup [PyVal.num n],
   symbol, init_price, mu, sigma, num_sims⟩

/-- `_create_geometric_brownian_motion` (lines 90-117): computes
`dt = T / n` on the stored attributes, then runs the numpy pipeline
`gbmPath`.  `ex` and `sq` stand for `np.exp` and `np.sqrt`, `z` for the
standard normal draws. -/
def create_geometric_brownian_motion (ex sq : α → α) (self : GBM_Simulator α)
    (z : List α) : Except PyError (PyVal α) :=
  match pyDiv self.T self.n with
  | Except.error e => Except.error e
  | Except.ok (PyVal.num d) =>
      Except.ok (PyVal.arr (gbmPath ex self.init_price self.mu self.sigma d (sq d) z))
  | Except.ok _ => Except.error PyError.typeError

/-- `_output_frame_to_dir` (lines 138-149): the CSV write, modelled as the
pair of the output path `os.path.join(output_dir, symbol + ".csv")` and
the written frame. -/
def output_frame_to_dir (self : GBM_Simulator α) (data : Frame α) : String × Frame α :=
  (self.output_dir ++ "/" ++ self.symbol ++ ".csv", data)

/-- A Python bound-method call with `p` declared parameters (including
`self`) and `k` explicit arguments: the receiver is passed implicitly, so
`k + 1` arguments arrive, and unless `k + 1 = p` Python raises `TypeError`
before running the body. -/
def pyCallBound (p k : Nat) {β : Type} (body : Unit → Except PyError β) :
    Except PyError β :=
  if k + 1 = p then body () else Except.error PyError.typeError

/-- `__call__` (lines 151-160).  The call sites and target signatures are:
`self._create_empty_frame()` (1 parameter, 0 explicit arguments),
`self._create_geometric_brownian_motion(self, data)` (2 parameters, 2
explicit arguments), `self._append_path_to_data(data, paths)` (3
parameters, 2 explicit arguments), `self._output_frame_to_dir(self, data)`
(2 parameters, 2 explicit arguments).  A successful run would return the
written file. -/
def GBM_Simulator.call (ex sq : α → α) (self : GBM_Simulator α) (z : List α) :
    Except PyError (String × Frame α) := do
  let data ← pyCallBound 1 0
    (fun _ => Except.ok (create_empty_frame self.start_date self.end_date : Frame α))
  let paths ← pyCallBound 2 2 (fun _ => create_geometric_brownian_motion ex sq self z)
  let patharr ← (match paths with
    | PyVal.arr l => Except.ok l
    | _ => Except.error PyError.typeError)
  let data2 ← pyCallBound 3 2 (fun _ => append_path_to_data data patharr)
  pyCallBound 2 2 (fun _ => Except.ok (output_frame_to_dir self data2))

end Model

/-! Helper lemmas shared by several claims. -/

theorem cumprodAux_map_exp (b : ℝ) (l : List ℝ) :
    cumprodAux (Real.exp b) (l.map Real.exp) = (cumsumAux b l).map Real.exp := by
  induction l generalizing b with
  | nil => rfl
  | cons x xs ih =>
    simp only [List.map_cons, cumprodAux, cumsumAux]
    rw [← Real.exp_add, ih]

theorem gbmPath_eq_exp_form (init_price mu sigma dt sqdt : ℝ) (z : List ℝ) :
    gbmPath Real.exp init_price mu sigma dt sqdt z
      = (cumsumAux 0 (increments mu sigma dt sqdt z)).map
          (fun c => init_price * Real.exp c) := by
  unfold gbmPath cumprod
  rw [← Real.exp_zero, cumprodAux_map_exp, List.map_map]
  rfl

theorem colLookup_assocSet_self {α : Type} (l : List (String × List α))
    (k : String) (v : List α) : colLookup (assocSet l k v) k = some v := by
  induction l with
  | nil => simp [assocSet, colLookup]
  | cons p rest ih =>
    obtain ⟨k1, v1⟩ := p
    by_cases h : k1 = k
    · simp [assocSet, colLookup, h]
    · simp [assocSet, colLookup, h, ih]

theorem colLookup_assocSet_ne {α : Type} (l : List (String × List α))
    (k k' : String) (v : List α) (h : k' ≠ k) :
    colLookup (assocSet l k v) k' = colLookup l k' := by
  induction l with
  | nil => simp [assocSet, colLookup, Ne.symm h]
  | cons p rest ih =>
    obtain ⟨k1, v1⟩ := p
    by_cases hk : k1 = k
    · subst hk
      simp [assocSet, colLookup, Ne.symm h]
    · simp [assocSet, colLookup, hk, ih]

/-! The claims. -/

/-- C1: for every path and time step, the price produced by the code
formulation (per-step exponential factors combined by `cumprod`, scaled by
`init_price`) equals the reference `init_price * exp(cum[t])` with
`cum[t]` the cumulative sum of the log-return increments. -/
theorem gbm_path_refines_exp_cumsum (init_price mu sigma dt : ℝ) (z : List ℝ) :
    gbmPath Real.exp init_price mu sigma dt (Real.sqrt dt) z
      = gbmPathSpec Real.exp init_price mu sigma dt (Real.sqrt dt) z := by
  rw [gbmPath_eq_exp_form]
  rfl

/-- C7: with a strictly positive initial price, every value produced by
the path generation pipeline is strictly positive. -/
theorem gbm_path_strictly_positive (init_price mu sigma dt : ℝ) (z : List ℝ)
    (h : 0 < init_price) :
    ∀ x ∈ gbmPath Real.exp init_price mu sigma dt (Real.sqrt dt) z, 0 < x := by
  rw [gbmPath_eq_exp_form]
  intro x hx
  rcases List.mem_map.mp hx with ⟨c, _, rfl⟩
  exact mul_pos h (Real.exp_pos c)

/-- Witness for C7 at `init_price = 1`, `mu = sigma = 0`, `dt = 1` and a
single draw. -/
theorem gbm_path_strictly_positive_witness :
    (0 : ℝ) < 1 ∧ ∀ x ∈ gbmPath Real.exp (1 : ℝ) 0 0 1 (Real.sqrt 1) [0], 0 < x :=
  ⟨one_pos, gbm_path_strictly_positive 1 0 0 1 [0] one_pos⟩

/-- C6: for `start_date ≤ end_date` the date index is strictly
increasing, has no duplicates, and every entry is a weekday lying between
`start_date` and `end_date` inclusive. -/
theorem business_days_sorted_weekday (s e : Nat) (h : s ≤ e) :
    List.Pairwise (· < ·) (businessDayRange s e) ∧
      (businessDayRange s e).Nodup ∧
      ∀ d ∈ businessDayRange s e, d % 7 < 5 ∧ s ≤ d ∧ d ≤ e := by
  have hp : List.Pairwise (· < ·) (businessDayRange s e) := by
    apply List.Pairwise.filter
    exact (List.pairwise_lt_range _).map _ (fun a b hab => by omega)
  refine ⟨hp, hp.imp (fun hlt => Nat.ne_of_lt hlt), ?_⟩
  intro d hd
  unfold businessDayRange at hd
  rw [List.mem_filter] at hd
  obtain ⟨hmem, hwd⟩ := hd
  rw [List.mem_map] at hmem
  obtain ⟨i, hi, rfl⟩ := hmem
  rw [List.mem_range] at hi
  refine ⟨by simpa using hwd, by omega, by omega⟩

/-- Witness for C6 on the week Monday..Friday (serials 0..4). -/
theorem business_days_sorted_weekday_witness :
    (0 : Nat) ≤ 4 ∧
      (List.Pairwise (· < ·) (businessDayRange 0 4) ∧
        (businessDayRange 0 4).Nodup ∧
        ∀ d ∈ businessDayRange 0 4, d % 7 < 5 ∧ 0 ≤ d ∧ d ≤ 4) :=
  ⟨Nat.zero_le 4, business_days_sorted_weekday 0 4 (Nat.zero_le 4)⟩

/-- C8: the constructor stores `T` and `n` as one-element tuples, so the
`dt = T / n` computation raises `TypeError` and
`_create_geometric_brownian_motion` never returns normally, for every
configuration and every draw. -/
theorem create_gbm_always_type_error (start_date end_date : Nat) (output_dir : String)
    (T n : ℝ) (symbol : String) (init_price mu sigma : ℝ) (num_sims : ℤ)
    (z : List ℝ) :
    (GBM_Simulator.init start_date end_date output_dir T n symbol init_price mu sigma
        num_sims).T = PyVal.tup [PyVal.num T] ∧
    (GBM_Simulator.init start_date end_date output_dir T n symbol init_price mu sigma
        num_sims).n = PyVal.tup [PyVal.num n] ∧
    create_geometric_brownian_motion Real.exp Real.sqrt
        (GBM_Simulator.init start_date end_date output_dir T n symbol init_price mu
          sigma num_sims) z
      = Except.error PyError.typeError :=
  ⟨rfl, rfl, rfl⟩

/-- C9: `__call__` passes `self` as an extra positional argument to the
bound methods, so it raises `TypeError` for every configuration and draw;
the error result means no output file is produced. -/
theorem call_raises_type_error_no_output (self : GBM_Simulator ℝ) (z : List ℝ) :
    GBM_Simulator.call Real.exp Real.sqrt self z = Except.error PyError.typeError :=
  rfl

/-- C10 (theorem): appending a path of matching length only modifies the
`close` column: the date column and the `open` column are unchanged and
`close` becomes the given path. -/
theorem append_path_modifies_only_close (f : Frame ℝ) (path : List ℝ)
    (hlen : path.length = f.dateCol.length) (f' : Frame ℝ)
    (happ : append_path_to_data f path = Except.ok f') :
    f'.dateCol = f.dateCol ∧
      colLookup f'.cols "open" = colLookup f.cols "open" ∧
      colLookup f'.cols "close" = some path := by
  unfold append_path_to_data at happ
  rw [if_pos hlen] at happ
  injection happ with happ
  subst happ
  refine ⟨rfl, ?_, colLookup_assocSet_self _ _ _⟩
  exact colLookup_assocSet_ne _ _ _ _ (by decide)

/-- Witness for C10 on a one-row frame. -/
theorem append_path_modifies_only_close_witness :
    ([(7 : ℝ)].length = (create_empty_frame (α := ℝ) 0 0).dateCol.length) ∧
    (append_path_to_data (create_empty_frame (α := ℝ) 0 0) [7]
        = Except.ok ⟨[0], [("open", [0]), ("close", [7])]⟩) ∧
    ((⟨[0], [("open", [(0 : ℝ)]), ("close", [7])]⟩ : Frame ℝ).dateCol
        = (create_empty_frame (α := ℝ) 0 0).dateCol ∧
      colLookup (⟨[0], [("open", [(0 : ℝ)]), ("close", [7])]⟩ : Frame ℝ).cols "open"
        = colLookup (create_empty_frame (α := ℝ) 0 0).cols "open" ∧
      colLookup (⟨[0], [("open", [(0 : ℝ)]), ("close", [7])]⟩ : Frame ℝ).cols "close"
        = some [7]) :=
  ⟨rfl, rfl, append_path_modifies_only_close (create_empty_frame 0 0) [7] rfl _ rfl⟩

/-- C2 (counterexample): at the valid configuration `num_sims = 1`,
`start_date = 0` (a Monday), `end_date = 4` (the Friday), the produced
table has columns `date, open, close` — it has no `path_1` column and no
`average` column. -/
theorem produced_table_lacks_path_and_average_columns :
    append_path_to_data (create_empty_frame (α := ℚ) 0 4) [1, 1, 1, 1, 1]
        = Except.ok ⟨[0, 1, 2, 3, 4],
            [("open", [0, 0, 0, 0, 0]), ("close", [1, 1, 1, 1, 1])]⟩ ∧
      frameColumns (⟨[0, 1, 2, 3, 4],
            [("open", ([0, 0, 0, 0, 0] : List ℚ)), ("close", [1, 1, 1, 1, 1])]⟩ : Frame ℚ)
        = ["date", "open", "close"] ∧
      "path_1" ∉ (["date", "open", "close"] : List String) ∧
      "average" ∉ (["date", "open", "close"] : List String) :=
  ⟨rfl, rfl, by decide, by decide⟩

/-- C2 (amended): for every date range and every path of matching length,
the produced table has the fixed columns `date, open, close` regardless of
`num_sims`; the single generated path is stored in the `close` column, and
no `path_i` or `average` columns exist. -/
theorem produced_table_columns (s e : Nat) (path : List ℝ)
    (h : path.length = (businessDayRange s e).length) :
    append_path_to_data (create_empty_frame s e) path
        = Except.ok ⟨businessDayRange s e,
            [("open", List.replicate (businessDayRange s e).length (0 : ℝ)),
             ("close", path)]⟩ ∧
      frameColumns (⟨businessDayRange s e,
            [("open", List.replicate (businessDayRange s e).length (0 : ℝ)),
             ("close", path)]⟩ : Frame ℝ)
        = ["date", "open", "close"] := by
  constructor
  · unfold append_path_to_data create_empty_frame
    rw [if_pos h]
    simp [assocSet]
  · rfl

/-- Witness for the amended C2 on the week of serials 0..4. -/
theorem produced_table_columns_witness :
    ([(1 : ℝ), 1, 1, 1, 1].length = (businessDayRange 0 4).length) ∧
      (append_path_to_data (create_empty_frame 0 4) [(1 : ℝ), 1, 1, 1, 1]
          = Except.ok ⟨businessDayRange 0 4,
              [("open", List.replicate (businessDayRange 0 4).length (0 : ℝ)),
               ("close", [1, 1, 1, 1, 1])]⟩ ∧
        frameColumns (⟨businessDayRange 0 4,
              [("open", List.replicate (businessDayRange 0 4).length (0 : ℝ)),
               ("close", [(1 : ℝ), 1, 1, 1, 1])]⟩ : Frame ℝ)
          = ["date", "open", "close"]) :=
  ⟨rfl, produced_table_columns 0 4 [1, 1, 1, 1, 1] rfl⟩

/-- C3 (counterexample): with constructor arguments `T = 2` and `n = 4`,
the stored `T` is the one-element tuple holding the free parameter `2`
(not `n / n = 1`), and the `dt = T / n` computation raises `TypeError`
instead of yielding `1 / n = 1 / 4`. -/
theorem dt_not_one_over_n_counterexample :
    (GBM_Simulator.init (α := ℝ) 0 4 "out" 2 4 "SYM" 100 0 1 1).T
        = PyVal.tup [PyVal.num 2] ∧
      pyDiv (GBM_Simulator.init (α := ℝ) 0 4 "out" 2 4 "SYM" 100 0 1 1).T
          (GBM_Simulator.init (α := ℝ) 0 4 "out" 2 4 "SYM" 100 0 1 1).n
        = Except.error PyError.typeError ∧
      pyDiv (GBM_Simulator.init (α := ℝ) 0 4 "out" 2 4 "SYM" 100 0 1 1).T
          (GBM_Simulator.init (α := ℝ) 0 4 "out" 2 4 "SYM" 100 0 1 1).n
        ≠ Except.ok (PyVal.num ((1 : ℝ) / 4)) :=
  ⟨rfl, rfl, fun hc => by simp [pyDiv, GBM_Simulator.init] at hc⟩

/-- C3 (amended): `T` is a free constructor parameter stored as given (in
a one-element tuple), not computed as `n / n`; and because `T` and `n` are
stored as tuples, `dt = T / n` raises `TypeError` for every `n`, so no
numeric `dt` (in particular not `1 / n`) is ever produced. -/
theorem dt_computation_raises_type_error (start_date end_date : Nat)
    (output_dir : String) (T n : ℝ) (symbol : String) (init_price mu sigma : ℝ)
    (num_sims : ℤ) :
    (GBM_Simulator.init start_date end_date output_dir T n symbol init_price mu sigma
        num_sims).T = PyVal.tup [PyVal.num T] ∧
      pyDiv (GBM_Simulator.init start_date end_date output_dir T n symbol init_price
            mu sigma num_sims).T
          (GBM_Simulator.init start_date end_date output_dir T n symbol init_price
            mu sigma num_sims).n
        = Except.error PyError.typeError :=
  ⟨rfl, rfl⟩

/-- C4 (counterexample): for `start_date = end_date = 5` (a Saturday), the
empty-range frame is built silently with zero rows — no error is raised at
that point — and the whole run fails with `TypeError` (from the extra
`self` arguments in `__call__`), not with a `DegenerateRangeError`. -/
theorem degenerate_weekend_range_counterexample :
    (create_empty_frame (α := ℝ) 5 5).dateCol = [] ∧
      GBM_Simulator.call Real.exp Real.sqrt
          (GBM_Simulator.init (α := ℝ) 5 5 "out" 1 0 "SYM" 100 0 1 1) []
        = Except.error PyError.typeError ∧
      GBM_Simulator.call Real.exp Real.sqrt
          (GBM_Simulator.init (α := ℝ) 5 5 "out" 1 0 "SYM" 100 0 1 1) []
        ≠ Except.error PyError.degenerateRange :=
  ⟨rfl, rfl, fun hc => PyError.noConfusion (Except.error.inj hc)⟩

/-- C4 (amended): no `DegenerateRangeError` exists in the code: for a date
range with zero business days, `_create_empty_frame` silently returns a
zero-row frame, and no output file is produced only because `__call__`
raises `TypeError` for every configuration. -/
theorem degenerate_range_is_silent (s e : Nat) (h : businessDayRange s e = [])
    (output_dir : String) (T n : ℝ) (symbol : String) (init_price mu sigma : ℝ)
    (num_sims : ℤ) (z : List ℝ) :
    (create_empty_frame (α := ℝ) s e).dateCol = [] ∧
      GBM_Simulator.call Real.exp Real.sqrt
          (GBM_Simulator.init s e output_dir T n symbol init_price mu sigma num_sims) z
        = Except.error PyError.typeError :=
  ⟨h, rfl⟩

/-- Witness for the amended C4 at the Saturday serial 5. -/
theorem degenerate_range_is_silent_witness :
    businessDayRange 5 5 = [] ∧
      ((create_empty_frame (α := ℝ) 5 5).dateCol = [] ∧
        GBM_Simulator.call Real.exp Real.sqrt
            (GBM_Simulator.init 5 5 "out" 1 0 "SYM" 100 0 1 1) []
          = Except.error PyError.typeError) :=
  ⟨rfl, degenerate_range_is_silent 5 5 rfl "out" 1 0 "SYM" 100 0 1 1 []⟩

/-- C5 (counterexample): the invalid configuration with `end_date` before
`start_date`, `init_price = -1`, `sigma = -1` and `num_sims = 0` is
accepted by the constructor, which returns normally with the invalid
values stored; the run fails with `TypeError`, never with a
`ConfigurationError`. -/
theorem invalid_config_accepted_counterexample :
    (GBM_Simulator.init (α := ℝ) 5 0 "out" 1 5 "SYM" (-1) 0 (-1) 0).start_date = 5 ∧
      (GBM_Simulator.init (α := ℝ) 5 0 "out" 1 5 "SYM" (-1) 0 (-1) 0).end_date = 0 ∧
      (GBM_Simulator.init (α := ℝ) 5 0 "out" 1 5 "SYM" (-1) 0 (-1) 0).init_price = -1 ∧
      (GBM_Simulator.init (α := ℝ) 5 0 "out" 1 5 "SYM" (-1) 0 (-1) 0).sigma = -1 ∧
      (GBM_Simulator.init (α := ℝ) 5 0 "out" 1 5 "SYM" (-1) 0 (-1) 0).num_sims = 0 ∧
      GBM_Simulator.call Real.exp Real.sqrt
          (GBM_Simulator.init (α := ℝ) 5 0 "out" 1 5 "SYM" (-1) 0 (-1) 0) []
        ≠ Except.error PyError.configurationError :=
  ⟨rfl, rfl, rfl, rfl, rfl, fun hc => PyError.noConfusion (Except.error.inj hc)⟩

/-- C5 (amended): `__init__` performs no validation: for every
configuration, valid or invalid, it returns normally with every argument
stored unchanged (`T` and `n` wrapped in one-element tuples), and the only
error the run ever raises is `TypeError` — never a `ConfigurationError`. -/
theorem init_performs_no_validation (start_date end_date : Nat) (output_dir : String)
    (T n : ℝ) (symbol : String) (init_price mu sigma : ℝ) (num_sims : ℤ)
    (z : List ℝ) :
    GBM_Simulator.init start_date end_date output_dir T n symbol init_price mu sigma
        num_sims
      = (⟨start_date, end_date, output_dir, PyVal.tup [PyVal.num T],
          PyVal.tup [PyVal.num n], symbol, init_price, mu, sigma,
          num_sims⟩ : GBM_Simulator ℝ) ∧
      GBM_Simulator.call Real.exp Real.sqrt
          (GBM_Simulator.init start_date end_date output_dir T n symbol init_price mu
            sigma num_sims) z
        = Except.error PyError.typeError :=
  ⟨rfl, rfl⟩
